import Mathlib

/-!
Verification of the Pointa recording-session and timeline-correlation engine.

This file gives a shallow embedding of the relevant parts of the source:

* the Timeline Correlator of `bug-recorder.js`
  (`dedupeEvents`, `generateTimeline`, `analyzeKeyIssues`, the filter and
  normalisation helpers);
* the background script's debugger lifecycle (`setViewport` / `resetViewport`,
  `startCDPRecording` / `stopCDPRecording`) and its CDP event listener
  (network correlation, console-API and exception forwarding);
* the two Backend Log Client implementations (`preload.cjs` and the
  `@pointa/server-logger` SDK's `logger.js`): reconnect scheduling and the
  disconnected-message buffers.

JavaScript objects are modelled as Lean structures whose optional fields are
`Option`-valued (`none` = the property is absent / `undefined`).  JavaScript
`Map`s are modelled as association lists with `Map.set` replace-or-append
semantics.  `Array.prototype.sort` with the comparator
`(a, b) => a.relativeTime - b.relativeTime` is a stable ascending sort and is
modelled by `List.insertionSort`, the canonical stable sort.  Millisecond
times are `Int`.
-/

namespace Pointa

/-- Stack-trace frame as forwarded by the CDP listener
(`{functionName, url, lineNumber}` in `background.js`). -/
structure FrameInfo where
  functionName : Option String := none
  url : Option String := none
  lineNumber : Int := 0
  columnNumber : Int := 0
deriving DecidableEq, Repr

/-- Timeline event.  Flattens the JavaScript event shape
`{timestamp, relativeTime, type, subtype, severity, data: {...}}`: the
`data` payload's fields appear here directly, `Option`-valued because each
producer only sets some of them. -/
structure TEvent where
  timestamp : String := ""
  relativeTime : Int := 0
  type : String := ""
  subtype : Option String := none
  severity : Option String := none
  message : Option String := none
  source : Option String := none
  level : Option String := none
  url : Option String := none
  method : Option String := none
  status : Option Int := none
  statusText : Option String := none
  mimeType : Option String := none
  resourceType : Option String := none
  errorText : Option String := none
  canceled : Option Bool := none
  blockedReason : Option String := none
  lineNumber : Option Int := none
  columnNumber : Option Int := none
  dataType : Option String := none
  stackTrace : Option (List FrameInfo) := none
  stack : Option String := none
deriving DecidableEq, Repr

/-- Comparator used by both sorts in `bug-recorder.js`:
`(a, b) => a.relativeTime - b.relativeTime`, i.e. ascending relative time. -/
def eventLE (a b : TEvent) : Prop := a.relativeTime ≤ b.relativeTime

instance : DecidableRel eventLE := fun a b =>
  inferInstanceAs (Decidable (a.relativeTime ≤ b.relativeTime))

instance : IsTotal TEvent eventLE := ⟨fun a b => Int.le_total a.relativeTime b.relativeTime⟩

instance : IsTrans TEvent eventLE := ⟨fun _ _ _ h h' => le_trans h h'⟩

/-- Helper used when JavaScript string-interpolates a possibly-absent value:
`undefined` interpolates as the string "undefined". -/
def jsStr (s : Option String) : String := s.getD "undefined"

/-- Model of JavaScript `String.prototype.startsWith`, computed on character
lists. -/
def jsStartsWith (s pat : String) : Bool := pat.data.isPrefixOf s.data

/-- Helper scan for `jsIncludes`: does `pat` occur as a contiguous segment? -/
def jsIncludesAux (pat : List Char) : List Char → Bool
  | [] => pat.isEmpty
  | c :: rest => pat.isPrefixOf (c :: rest) || jsIncludesAux pat rest

/-- Model of JavaScript `String.prototype.includes`, computed on character
lists. -/
def jsIncludes (s pat : String) : Bool := jsIncludesAux pat.data s.data

/-- Source of `truncateMessage(message, maxLength)` in `bug-recorder.js`:
messages longer than the cap are cut and suffixed with an ellipsis. -/
def truncateMessage (message : String) (maxLength : Nat) : String :=
  if message.length ≤ maxLength then message
  else (message.take maxLength) ++ "..."

/-- Source of `stripConsoleStyling` in `bug-recorder.js`.  The source removes
the `%c` style markers and then applies further regex rewrites that delete
inline CSS directives (`color: #…`, `font-weight: …`, …), collapse runs of
spaces and trim; falling back to the original message when the cleaned string
is empty.  The `%c`-marker removal and the empty fallback are modelled
exactly; the CSS-directive deletions are additional pure rewrites of the
message text and are not modelled further (no verified property depends on
message content produced by this function). -/
def stripConsoleStyling (message : String) : String :=
  let cleaned := ((message.replace "%c" "").trim)
  if cleaned = "" then message else cleaned

/-- Source of `shouldFilterConsoleEvent` in `bug-recorder.js`: drop the
tool's own extension traffic and two known-noisy third-party log patterns. -/
def shouldFilterConsoleEvent (event : TEvent) : Bool :=
  let source := event.source.getD ""
  let message := event.message.getD ""
  if jsStartsWith source "chrome-extension://" then true
  else if jsIncludes message "[code-inspector-plugin]" then true
  else if jsIncludes message "[HMR]" && event.type == "console-log" then true
  else false

/-- Source of `shouldFilterNetworkEvent` in `bug-recorder.js`: drop the
tool's own health-check and control-plane requests and CORS preflights. -/
def shouldFilterNetworkEvent (event : TEvent) : Bool :=
  let url := event.url.getD ""
  let method := event.method.getD ""
  if jsIncludes url "127.0.0.1:4242/health" then true
  else if jsIncludes url "localhost:4242/health" then true
  else if method == "OPTIONS" then true
  else if jsIncludes url "127.0.0.1:4242/api/backend" then true
  else false

/-- Source of `optimizeConsoleEvent` in `bug-recorder.js`: strip styling,
truncate to 300 characters, and drop the stack trace of info-level
(`console-log`) events. -/
def optimizeConsoleEvent (event : TEvent) : TEvent :=
  { event with
    message := event.message.map (fun m => truncateMessage (stripConsoleStyling m) 300)
    stackTrace := if event.type == "console-log" then none else event.stackTrace }

/-- Condition under which the dedup loop of `dedupeEvents` treats `e` as a
repeat of the current run's first event `last`: same `type`, same
`data.message`, and `Math.abs(event.relativeTime - lastEvent.relativeTime)
< 100`. -/
def dedupeSame (last e : TEvent) : Bool :=
  last.type == e.type && last.message == e.message &&
    (e.relativeTime - last.relativeTime).natAbs < 100

/-- Flush step of `dedupeEvents`: when a run held repeats, the surviving
event's message gains the `(×N)` suffix (`N = repeatCount + 1`). -/
def dedupeFlush (last : TEvent) (repeatCount : Nat) : TEvent :=
  if repeatCount > 0 then
    { last with message := some (jsStr last.message ++ " (×" ++ toString (repeatCount + 1) ++ ")") }
  else last

/-- Loop body of `dedupeEvents` in `bug-recorder.js`: `last` is the first
event of the current run (the source's `lastEvent`, which is never updated
while a run continues), `repeatCount` the number of repeats seen so far. -/
def dedupeGo : TEvent → Nat → List TEvent → List TEvent
  | last, repeatCount, [] => [dedupeFlush last repeatCount]
  | last, repeatCount, e :: rest =>
    if dedupeSame last e then dedupeGo last (repeatCount + 1) rest
    else dedupeFlush last repeatCount :: dedupeGo e 0 rest

/-- Source of `dedupeEvents` in `bug-recorder.js`: collapse runs of repeated
identical messages that occur within 100 ms of the run's first event. -/
def dedupeEvents : List TEvent → List TEvent
  | [] => []
  | e :: rest => dedupeGo e 0 rest

/-- Instrumented run decomposition of the `dedupeEvents` loop: each returned
pair is a run's first (surviving) event together with the later events that
were collapsed into it.  `dedupeEvents` equals mapping the flush step over
this decomposition (proved below), so statements about which events get
collapsed together can be phrased through it. -/
def dedupeRunsGo : TEvent → List TEvent → List TEvent → List (TEvent × List TEvent)
  | last, acc, [] => [(last, acc.reverse)]
  | last, acc, e :: rest =>
    if dedupeSame last e then dedupeRunsGo last (e :: acc) rest
    else (last, acc.reverse) :: dedupeRunsGo e [] rest

/-- Run decomposition of a whole event list (see `dedupeRunsGo`). -/
def dedupeRuns : List TEvent → List (TEvent × List TEvent)
  | [] => []
  | e :: rest => dedupeRunsGo e [] rest

/-- Raw per-session event buffers (`recordingData` in `bug-recorder.js`). -/
structure RecordingData where
  console : List TEvent := []
  network : List TEvent := []
  interactions : List TEvent := []
  backendLogs : List TEvent := []
deriving DecidableEq, Repr

/-- Summary block computed by `generateTimeline`. -/
structure Summary where
  totalEvents : Nat
  userInteractions : Nat
  networkRequests : Nat
  networkFailures : Nat
  consoleErrors : Nat
  backendLogs : Nat
  backendErrors : Nat
  consoleWarnings : Nat
  consoleLogs : Nat
deriving DecidableEq, Repr

/-- Timeline returned by `generateTimeline`. -/
structure Timeline where
  events : List TEvent
  summary : Summary
deriving DecidableEq, Repr

/-- Source of `generateTimeline` in `bug-recorder.js`: filter console and
network buffers, truncate backend-log messages, concatenate all four
sources, stable-sort by `relativeTime`, deduplicate, and summarise. -/
def generateTimeline (rd : RecordingData) : Timeline :=
  let filteredConsole :=
    (rd.console.filter (fun e => !shouldFilterConsoleEvent e)).map optimizeConsoleEvent
  let filteredNetwork := rd.network.filter (fun e => !shouldFilterNetworkEvent e)
  let backendLogs := rd.backendLogs.map (fun e =>
    { e with message := e.message.map (fun m => truncateMessage m 300) })
  let allEvents := filteredConsole ++ filteredNetwork ++ rd.interactions ++ backendLogs
  let sorted := List.insertionSort eventLE allEvents
  let deduped := dedupeEvents sorted
  { events := deduped
    summary :=
      { totalEvents := deduped.length
        userInteractions := rd.interactions.length
        networkRequests := filteredNetwork.length
        networkFailures := (filteredNetwork.filter (fun e => e.subtype == some "failed")).length
        consoleErrors := (filteredConsole.filter (fun e => e.type == "console-error")).length
        backendLogs := backendLogs.length
        backendErrors := (backendLogs.filter (fun e => e.type == "backend-error")).length
        consoleWarnings := (filteredConsole.filter (fun e => e.type == "console-warning")).length
        consoleLogs := (filteredConsole.filter (fun e => e.type == "console-log")).length } }

/-- Key issue extracted by `analyzeKeyIssues`.  The source pushes plain
objects without an `isRootCause` property (absent = falsy), then sets
`isRootCause = true` on the first element after sorting; the flag is
therefore `Bool`-valued with default `false`. -/
structure KeyIssue where
  type : String
  description : String
  timestamp : String
  relativeTime : Int
  severity : String
  source : Option String := none
  lineNumber : Option Int := none
  url : Option String := none
  status : Option Int := none
  stack : Option String := none
  isRootCause : Bool := false
deriving DecidableEq, Repr

/-- Comparator of the key-issue sort in `analyzeKeyIssues`:
`(a, b) => a.relativeTime - b.relativeTime`. -/
def keyIssueLE (a b : KeyIssue) : Prop := a.relativeTime ≤ b.relativeTime

instance : DecidableRel keyIssueLE := fun a b =>
  inferInstanceAs (Decidable (a.relativeTime ≤ b.relativeTime))

instance : IsTotal KeyIssue keyIssueLE := ⟨fun a b => Int.le_total a.relativeTime b.relativeTime⟩

instance : IsTrans KeyIssue keyIssueLE := ⟨fun _ _ _ h h' => le_trans h h'⟩

/-- Status text of the network-failure description in `analyzeKeyIssues`:
`failure.data.status || 'unknown'` (note `0` is falsy in JavaScript). -/
def statusText (status : Option Int) : String :=
  match status with
  | some s => if s = 0 then "unknown" else toString s
  | none => "unknown"

/-- Key-issue collection step of `analyzeKeyIssues` in `bug-recorder.js`
(the current, `part_004` version): console errors whose source is not a
Chrome extension, then network failures, then backend errors, in source
push order.  None of the pushed records carries an `isRootCause` property
(default `false`). -/
def buildKeyIssues (events : List TEvent) : List KeyIssue :=
  let consoleErrors := events.filter (fun e =>
    e.type == "console-error" && !(jsStartsWith (e.source.getD "") "chrome-extension://"))
  let networkFailures := events.filter (fun e =>
    e.type == "network" && e.subtype == some "failed")
  let backendErrors := events.filter (fun e => e.type == "backend-error")
  consoleErrors.map (fun e =>
    { type := "console-error", description := jsStr e.message, timestamp := e.timestamp
      relativeTime := e.relativeTime, severity := "error", source := e.source
      lineNumber := e.lineNumber : KeyIssue }) ++
  networkFailures.map (fun e =>
    { type := "network-failure"
      description := jsStr e.method ++ " " ++ jsStr e.url ++ " failed with status " ++
        statusText e.status
      timestamp := e.timestamp, relativeTime := e.relativeTime, severity := "error"
      url := e.url, status := e.status : KeyIssue }) ++
  backendErrors.map (fun e =>
    { type := "backend-error", description := jsStr e.message, timestamp := e.timestamp
      relativeTime := e.relativeTime, severity := "error", source := some "backend"
      stack := e.stack : KeyIssue })

/-- Root-cause marking step of `analyzeKeyIssues`: when the sorted list is
non-empty, set `isRootCause = true` on its first element. -/
def markRootCause : List KeyIssue → List KeyIssue
  | [] => []
  | first :: rest => { first with isRootCause := true } :: rest

/-- Source of `analyzeKeyIssues` in `bug-recorder.js`: collect the key
issues, sort them by relative time, and mark the first of a non-empty list
as the root cause. -/
def analyzeKeyIssues (timeline : Timeline) : List KeyIssue :=
  markRootCause (List.insertionSort keyIssueLE (buildKeyIssues timeline.events))

/-!
Background-script debugger lifecycle (`background.js`).

The background object keeps two per-tab `Map`s whose keys are tab ids:
`viewportOverrides` (the viewport-emulation feature holds the debugger) and
`cdpRecordings` (the recording feature holds it, with its captured events and
pending-request map).  `attachedTabs` models which tabs currently have the
Chrome debugger physically attached.  Results of the asynchronous
`chrome.debugger` calls are passed in as `Except String Unit` parameters so
both the success and the failure paths of the source are covered.
-/

/-- Pending-request record kept by the CDP listener
(`recording.pendingRequests` entry: `{url, method}`). -/
structure PendingRequest where
  url : String
  method : String
deriving DecidableEq, Repr

/-- JavaScript `Map.set`: replace the value of an existing key, otherwise
append preserving insertion order. -/
def mapSet (m : List (String × PendingRequest)) (k : String) (v : PendingRequest) :
    List (String × PendingRequest) :=
  if (m.lookup k).isSome then
    m.map (fun p => if p.1 = k then (k, v) else p)
  else m ++ [(k, v)]

/-- Per-tab CDP recording entry
(`{events, startTime, pendingRequests}` in `background.js`; `startTime` is
folded into the `relativeTime` passed to the listener). -/
structure CDPRecording where
  events : List TEvent := []
  pendingRequests : List (String × PendingRequest) := []
deriving DecidableEq, Repr

/-- Network-domain CDP events consumed by the listener in
`setupCDPEventListener`. -/
inductive NetworkCDPEvent
  | responseReceived (requestId : String) (url : String) (status : Int)
      (statusText : String) (mimeType : String) (resourceType : String)
  | loadingFailed (requestId : String) (errorText : String) (canceled : Bool)
      (blockedReason : Option String)
  | requestWillBeSent (requestId : String) (url : String) (method : String)
deriving DecidableEq, Repr

/-- Network portion of the CDP event listener in `setupCDPEventListener`
(`background.js`).  `Network.responseReceived` classifies success by
`200 <= status < 400`, recovers the method from the tracked request
(defaulting to GET) and pushes a network event; `Network.loadingFailed`
pushes a failure event using the tracked url/method (defaulting to
"unknown"); `Network.requestWillBeSent` records the pending request.
`timestamp` and `relativeTime` are the values the listener computes from the
clock on entry. -/
def handleNetworkEvent (recording : CDPRecording) (timestamp : String)
    (relativeTime : Int) : NetworkCDPEvent → CDPRecording
  | .responseReceived requestId url status statusText mimeType resourceType =>
    let isSuccess := 200 ≤ status ∧ status < 400
    let trackedRequest := recording.pendingRequests.lookup requestId
    { recording with
      events := recording.events ++
        [{ timestamp := timestamp, relativeTime := relativeTime, type := "network"
           subtype := some (if isSuccess then "success" else "failed")
           severity := some (if isSuccess then "info" else "error")
           url := some url
           method := some ((trackedRequest.map (·.method)).getD "GET")
           status := some status, statusText := some statusText
           mimeType := some mimeType, resourceType := some resourceType
           dataType := some "cdp" }] }
  | .loadingFailed requestId errorText canceled blockedReason =>
    let request := recording.pendingRequests.lookup requestId
    { recording with
      events := recording.events ++
        [{ timestamp := timestamp, relativeTime := relativeTime, type := "network"
           subtype := some "failed", severity := some "error"
           url := some ((request.map (·.url)).getD "unknown")
           method := some ((request.map (·.method)).getD "unknown")
           errorText := some errorText, canceled := some canceled
           blockedReason := blockedReason, dataType := some "cdp" }] }
  | .requestWillBeSent requestId url method =>
    { recording with
      pendingRequests := mapSet recording.pendingRequests requestId ⟨url, method⟩ }

/-- Remote-object preview property (`{name, value}`) of a CDP console
argument. -/
structure PreviewProp where
  name : String
  value : String
deriving DecidableEq, Repr

/-- Remote-object preview of a CDP console argument. -/
structure ObjPreview where
  properties : Option (List PreviewProp) := none
  description : Option String := none
deriving DecidableEq, Repr

/-- CDP remote object, the shape of an entry of `params.args` in
`Runtime.consoleAPICalled`.  `value` holds the JavaScript string form of the
primitive value when one is present. -/
structure RemoteObject where
  type : String
  value : Option String := none
  description : Option String := none
  preview : Option ObjPreview := none
deriving DecidableEq, Repr

/-- JavaScript truthiness fallback on strings (`a || b`): the empty string is
falsy. -/
def jsOrStr (a b : String) : String := if a = "" then b else a

/-- Argument-to-string conversion of the `Runtime.consoleAPICalled` handler
in `background.js`: strings pass through, numbers/booleans stringify,
objects use the preview reconstruction with fallbacks, anything else falls
back to `description || String(value) || '[Unknown]'`. -/
def remoteObjectToString (arg : RemoteObject) : String :=
  if arg.type = "string" then arg.value.getD "undefined"
  else if arg.type = "number" then jsStr arg.value
  else if arg.type = "boolean" then jsStr arg.value
  else if arg.type = "undefined" then "undefined"
  else if arg.type = "object" then
    match arg.preview with
    | some preview =>
      match preview.properties with
      | some props =>
        "\x7b" ++ String.intercalate ", " (props.map (fun p => p.name ++ ": " ++ p.value)) ++ "\x7d"
      | none => preview.description.getD "[Object]"
    | none => arg.description.getD "[Object]"
  else jsOrStr (arg.description.getD "") (jsOrStr (jsStr arg.value) "[Unknown]")

/-- Event-type/severity classification shared by the console handlers in
`setupCDPEventListener` (`error` / `warning` / everything else). -/
def consoleTypeOf (t : String) : String × String :=
  if t = "error" then ("console-error", "error")
  else if t = "warning" then ("console-warning", "warning")
  else ("console-log", "info")

/-- Payload of a `Runtime.consoleAPICalled` CDP event. -/
structure ConsoleAPIParams where
  type : String
  args : List RemoteObject := []
  stackTrace : Option (List FrameInfo) := none
deriving DecidableEq, Repr

/-- Filter of the `Runtime.consoleAPICalled` handler: drop calls whose stack
contains a frame from the tool's own extension (url containing
`chrome-extension://` and one of the `/content/`, `/background/`, `/popup/`
path segments). -/
def isFromPointaExtension (callFrames : List FrameInfo) : Bool :=
  callFrames.any (fun frame =>
    let u := frame.url.getD ""
    jsIncludes u "chrome-extension://" &&
      (jsIncludes u "/content/" || jsIncludes u "/background/" ||
        jsIncludes u "/popup/"))

/-- Source of the `Runtime.consoleAPICalled` branch of
`setupCDPEventListener` (`background.js`): skip the tool's own calls,
reconstruct the message from the argument list, and push a console event
whose `stackTrace` keeps only the first 3 call frames
(`params.stackTrace?.callFrames?.slice(0, 3)`). -/
def handleConsoleAPICalled (recording : CDPRecording) (timestamp : String)
    (relativeTime : Int) (params : ConsoleAPIParams) : CDPRecording :=
  let callFrames := (params.stackTrace.getD [])
  if isFromPointaExtension callFrames then recording
  else
    let et := consoleTypeOf params.type
    let message := String.intercalate " " (params.args.map remoteObjectToString)
    { recording with
      events := recording.events ++
        [{ timestamp := timestamp, relativeTime := relativeTime, type := et.1
           severity := some et.2, message := some message, level := some params.type
           stackTrace := params.stackTrace.map (fun fs =>
             (fs.take 3).map (fun f =>
               { functionName := f.functionName, url := f.url
                 lineNumber := f.lineNumber : FrameInfo })) }] }

/-- Payload of a `Runtime.exceptionThrown` CDP event
(`params.exceptionDetails`).  `exceptionDescription` models
`exception.exception?.description`. -/
structure ExceptionDetails where
  text : Option String := none
  exceptionDescription : Option String := none
  url : Option String := none
  lineNumber : Int := 0
  columnNumber : Int := 0
  stackTrace : Option (List FrameInfo) := none
deriving DecidableEq, Repr

/-- Formatting of one stack frame by the `Runtime.exceptionThrown` handler:
`    at ${f.functionName || '(anonymous)'} (${f.url}:${f.lineNumber}:${f.columnNumber})`. -/
def exceptionFrameLine (f : FrameInfo) : String :=
  "    at " ++ jsOrStr (f.functionName.getD "") "(anonymous)" ++ " (" ++
    jsStr f.url ++ ":" ++ toString f.lineNumber ++ ":" ++ toString f.columnNumber ++ ")"

/-- Stack lines built by the `Runtime.exceptionThrown` handler: one line per
call frame, with no depth cap. -/
def exceptionStackLines (fs : List FrameInfo) : List String :=
  fs.map exceptionFrameLine

/-- JavaScript truthiness fallback chain on optional strings
(`a || b || c`): absent and empty values fall through. -/
def jsOrOpt (a : Option String) (b : String) : String :=
  jsOrStr (a.getD "") b

/-- Source of the `Runtime.exceptionThrown` branch of
`setupCDPEventListener` (`background.js`): push a `console-error` event
whose `stack` is the newline-joined formatting of all call frames
(`exception.stackTrace?.callFrames?.map(...).join('\n')` — no `slice`). -/
def handleExceptionThrown (recording : CDPRecording) (timestamp : String)
    (relativeTime : Int) (exception : ExceptionDetails) : CDPRecording :=
  { recording with
    events := recording.events ++
      [{ timestamp := timestamp, relativeTime := relativeTime, type := "console-error"
         severity := some "error"
         message := some (jsOrOpt exception.text
           (jsOrOpt exception.exceptionDescription "Uncaught exception"))
         level := some "error", source := exception.url
         lineNumber := some exception.lineNumber
         columnNumber := some exception.columnNumber
         stack := exception.stackTrace.map (fun fs =>
           String.intercalate "\n" (exceptionStackLines fs)) }] }

/-- Debugger-lifecycle state of the background script: which tabs have the
debugger physically attached, which tabs hold a viewport override
(`viewportOverrides` keys), and which tabs hold an active CDP recording
(`cdpRecordings` keys). -/
structure BGState where
  attachedTabs : List Nat := []
  viewportOverrides : List Nat := []
  cdpRecordingTabs : List Nat := []
deriving DecidableEq, Repr

/-- Source of `resetViewport` in `background.js`: clear the device-metrics
override, detach the debugger unconditionally, and delete the override
marker; any thrown error is swallowed, skipping the remaining steps
(`clearRes` and `detachRes` are the outcomes of the two `chrome.debugger`
calls). -/
def resetViewport (s : BGState) (tabId : Nat)
    (clearRes detachRes : Except String Unit) : BGState :=
  match clearRes with
  | .error _ => s
  | .ok _ =>
    match detachRes with
    | .error _ => s
    | .ok _ =>
      { s with attachedTabs := s.attachedTabs.filter (· ≠ tabId)
               viewportOverrides := s.viewportOverrides.filter (· ≠ tabId) }

/-- Source of `startCDPRecording` in `background.js`: bail out if a
recording exists; create the recording entry; attach the debugger unless the
viewport feature already holds it; enable the Network, Log and Runtime
domains; on any failure delete the recording entry and rethrow.  The four
`Except` parameters are the outcomes of the `chrome.debugger` calls; the
first component of the result is what the caller receives. -/
def startCDPRecording (s : BGState) (tabId : Nat)
    (attachRes enableNetworkRes enableLogRes enableRuntimeRes : Except String Unit) :
    Except String Unit × BGState :=
  if tabId ∈ s.cdpRecordingTabs then (.ok (), s)
  else
    let s1 := { s with cdpRecordingTabs := s.cdpRecordingTabs ++ [tabId] }
    let isAttached := tabId ∈ s.viewportOverrides
    let failed : String → Except String Unit × BGState := fun e =>
      (.error e, { s1 with cdpRecordingTabs := s1.cdpRecordingTabs.filter (· ≠ tabId) })
    match (if isAttached then .ok () else attachRes) with
    | .error e => failed e
    | .ok _ =>
      let s2 :=
        if isAttached then s1
        else { s1 with attachedTabs := s1.attachedTabs ++ [tabId] }
      match enableNetworkRes with
      | .error e => (.error e, { s2 with cdpRecordingTabs := s2.cdpRecordingTabs.filter (· ≠ tabId) })
      | .ok _ =>
        match enableLogRes with
        | .error e => (.error e, { s2 with cdpRecordingTabs := s2.cdpRecordingTabs.filter (· ≠ tabId) })
        | .ok _ =>
          match enableRuntimeRes with
          | .error e => (.error e, { s2 with cdpRecordingTabs := s2.cdpRecordingTabs.filter (· ≠ tabId) })
          | .ok _ => (.ok (), s2)

/-- Source of `stopCDPRecording` in `background.js`: if no recording exists
for the tab, return with no state change; otherwise disable the domains
(errors logged and swallowed), detach the debugger only when the viewport
feature does not still hold it (`!this.viewportOverrides.has(tabId)`, detach
errors swallowed), and delete the recording entry. -/
def stopCDPRecording (s : BGState) (tabId : Nat)
    (detachRes : Except String Unit) : BGState :=
  if tabId ∈ s.cdpRecordingTabs then
    let attached' :=
      if tabId ∈ s.viewportOverrides then s.attachedTabs
      else
        match detachRes with
        | .ok _ => s.attachedTabs.filter (· ≠ tabId)
        | .error _ => s.attachedTabs
    { s with attachedTabs := attached'
             cdpRecordingTabs := s.cdpRecordingTabs.filter (· ≠ tabId) }
  else s

/-!
Backend Log Client.  The repository ships two implementations: the injected
`preload.cjs` (module-level state, `MAX_RECONNECT_ATTEMPTS = 10`, delay
`Math.min(1000 * Math.pow(2, reconnectAttempts), 30000)`, unbounded
`messageQueue`) and the `@pointa/server-logger` SDK's `PointaServerLogger`
(`maxReconnectAttempts = 5`, `reconnectDelay = 2000` multiplied by
`Math.pow(1.5, attempts - 1)` with no cap, `buffer` capped at
`maxBufferSize = 100` by refusing new entries when full).
-/

/-- Log message as built by `sendLog` (both clients); only the fields that
matter for buffering behaviour are modelled. -/
structure LogMessage where
  level : String := "log"
  message : String := ""
  stack : Option String := none
deriving DecidableEq, Repr

/-- Source constant `MAX_RECONNECT_ATTEMPTS` of `preload.cjs`. -/
def MAX_RECONNECT_ATTEMPTS : Nat := 10

/-- Reconnect delay armed by the close handler of `preload.cjs`:
`Math.min(1000 * Math.pow(2, reconnectAttempts), 30000)`, where
`reconnectAttempts` was just incremented. -/
def preloadReconnectDelay (attempts : Nat) : Nat :=
  min (1000 * 2 ^ attempts) 30000

/-- Module-level state of `preload.cjs`: reconnect counter, whether a
`WebSocket` object currently exists (`ws !== null`), whether it is open
(`readyState === 1`), whether a reconnect timer is armed, the delay of the
most recently armed timer, the recording flag set by the `start_recording` /
`stop_recording` control messages, the disconnected-message queue and the
messages already sent. -/
structure PreloadState where
  reconnectAttempts : Nat := 0
  hasSocket : Bool := false
  wsOpen : Bool := false
  timerArmed : Bool := false
  lastDelay : Option Nat := none
  isRecording : Bool := false
  messageQueue : List LogMessage := []
  sentMessages : List LogMessage := []
deriving DecidableEq, Repr

/-- Source of `sendLog` in `preload.cjs`: swallowed unless recording; sent
directly when the socket is open; otherwise pushed onto `messageQueue`
unconditionally — the queue has no size check. -/
def preloadSendLog (s : PreloadState) (m : LogMessage) : PreloadState :=
  if !s.isRecording then s
  else if s.hasSocket && s.wsOpen then { s with sentMessages := s.sentMessages ++ [m] }
  else { s with messageQueue := s.messageQueue ++ [m] }

/-- External events driving the `preload.cjs` connection lifecycle. -/
inductive PreloadEvent
  | socketClose
  | timerFire
  | socketOpen
  | consoleLog (m : LogMessage)
deriving DecidableEq, Repr

/-- Transition function of the `preload.cjs` connection lifecycle.
`socketClose` is the `ws.on('close')` handler: drop the socket, increment
`reconnectAttempts`, and arm a timer for `connect` with the backoff delay —
unconditionally.  `timerFire` runs `connect()`, which returns immediately
once `reconnectAttempts >= MAX_RECONNECT_ATTEMPTS` and otherwise constructs
a new socket (successful construction assumed; a failed `require('ws')`
or constructor throw would only disable the client sooner).  `socketOpen`
is the `ws.on('open')` handler: reset the counter and flush the queue.
`consoleLog` is an intercepted console call, i.e. `sendLog`.  Events that
cannot occur in a state (close without a socket, open without a socket,
timer firing with no timer armed) leave the state unchanged. -/
def preloadStep (s : PreloadState) : PreloadEvent → PreloadState
  | .socketClose =>
    if s.hasSocket then
      { s with hasSocket := false, wsOpen := false
               reconnectAttempts := s.reconnectAttempts + 1
               timerArmed := true
               lastDelay := some (preloadReconnectDelay (s.reconnectAttempts + 1)) }
    else s
  | .timerFire =>
    if s.timerArmed then
      let s' := { s with timerArmed := false }
      if s'.reconnectAttempts ≥ MAX_RECONNECT_ATTEMPTS then s'
      else { s' with hasSocket := true }
    else s
  | .socketOpen =>
    if s.hasSocket then
      { s with wsOpen := true, reconnectAttempts := 0
               sentMessages := s.sentMessages ++ s.messageQueue
               messageQueue := [] }
    else s
  | .consoleLog m => preloadSendLog s m

/-- Run the `preload.cjs` lifecycle over a sequence of events. -/
def preloadRun (s : PreloadState) (events : List PreloadEvent) : PreloadState :=
  events.foldl preloadStep s

/-- Source constant `maxReconnectAttempts` of `logger.js`. -/
def loggerMaxReconnectAttempts : Nat := 5

/-- Source constant `reconnectDelay` of `logger.js` (the base delay). -/
def loggerReconnectBaseDelay : ℚ := 2000

/-- Source constant `maxBufferSize` of `logger.js`. -/
def loggerMaxBufferSize : Nat := 100

/-- Instance state of `PointaServerLogger` (`logger.js`): reconnect counter,
whether a reconnect timer is armed (`reconnectTimer !== null`), the delay of
the most recently armed timer, socket openness, the bounded buffer and the
messages already sent. -/
structure LoggerState where
  reconnectAttempts : Nat := 0
  timerArmed : Bool := false
  lastDelay : Option ℚ := none
  wsOpen : Bool := false
  buffer : List LogMessage := []
  sentMessages : List LogMessage := []
deriving DecidableEq, Repr

/-- Source of `scheduleReconnect` in `logger.js`: clear any armed timer;
once `reconnectAttempts >= maxReconnectAttempts`, warn and return without
arming another timer; otherwise increment the counter and arm a timer after
`reconnectDelay * Math.pow(1.5, reconnectAttempts - 1)` milliseconds. -/
def scheduleReconnect (s : LoggerState) : LoggerState :=
  let s0 := { s with timerArmed := false }
  if s0.reconnectAttempts ≥ loggerMaxReconnectAttempts then s0
  else
    let attempts' := s0.reconnectAttempts + 1
    { s0 with reconnectAttempts := attempts'
              timerArmed := true
              lastDelay := some (loggerReconnectBaseDelay * (3 / 2 : ℚ) ^ (attempts' - 1)) }

/-- Source of `send` in `logger.js`: send directly when the socket is open
(send errors swallowed); otherwise buffer the message only when the buffer
is still below `maxBufferSize` — a full buffer silently drops the new
message. -/
def loggerSend (s : LoggerState) (m : LogMessage) : LoggerState :=
  if s.wsOpen then { s with sentMessages := s.sentMessages ++ [m] }
  else if s.buffer.length < loggerMaxBufferSize then { s with buffer := s.buffer ++ [m] }
  else s

/-!
Session event routing (`addTimelineEvent` in `bug-recorder.js`).
-/

/-- Event object passed to `addTimelineEvent` by its callers
(`{type, severity, data}` — the callers never set `timestamp` or
`relativeTime` themselves). -/
structure NewEvent where
  type : String
  severity : Option String := none
  message : Option String := none
  url : Option String := none
  method : Option String := none
  stack : Option String := none
deriving DecidableEq, Repr

/-- Source of `addTimelineEvent` in `bug-recorder.js`: stamp the event with
the wall clock and the session-relative time, then route it into the
`console` buffer when its type starts with "console", the `network` buffer
when its type is exactly "network", the `interactions` buffer when its type
starts with "user-interaction" — and silently drop it otherwise. -/
def addTimelineEvent (rd : RecordingData) (timestamp : String) (relativeTime : Int)
    (event : NewEvent) : RecordingData :=
  let timelineEvent : TEvent :=
    { timestamp := timestamp, relativeTime := relativeTime, type := event.type
      severity := event.severity, message := event.message, url := event.url
      method := event.method, stack := event.stack }
  if jsStartsWith event.type "console" then
    { rd with console := rd.console ++ [timelineEvent] }
  else if event.type = "network" then
    { rd with network := rd.network ++ [timelineEvent] }
  else if jsStartsWith event.type "user-interaction" then
    { rd with interactions := rd.interactions ++ [timelineEvent] }
  else rd

/-!
Concrete instances used by the counterexamples and witnesses below.
-/

/-- Console error used in the dedup counterexample (first occurrence). -/
def dupA : TEvent := { type := "console-error", relativeTime := 0, message := some "m" }

/-- Unrelated event separating the two identical console errors. -/
def sepB : TEvent := { type := "console-log", relativeTime := 10, message := some "x" }

/-- Console error used in the dedup counterexample (second occurrence,
20 ms after the first). -/
def dupC : TEvent := { type := "console-error", relativeTime := 20, message := some "m" }

/-- Repeat of `dupA` 50 ms later, used for the collapse witness. -/
def dupA2 : TEvent := { type := "console-error", relativeTime := 50, message := some "m" }

/-- Network failure event used in the C5 witness. -/
def demoNetFail : TEvent :=
  { type := "network", subtype := some "failed", relativeTime := 500
    method := some "GET", url := some "/api/data", status := some 500 }

/-- Console error event used in the C5 witness. -/
def demoErr : TEvent :=
  { type := "console-error", relativeTime := 820, message := some "m" }

/-- Timeline used in the C5 witness. -/
def demoTimeline : Timeline :=
  { events := [demoNetFail, demoErr]
    summary := ⟨2, 0, 1, 1, 1, 0, 0, 0, 0⟩ }

/-- State in which tab 1 has both the viewport override and an active CDP
recording, with the debugger attached. -/
def bothActive : BGState :=
  { attachedTabs := [1], viewportOverrides := [1], cdpRecordingTabs := [1] }

/-- Recording after a request-started event for id "r1" (C2 scenario). -/
def pendingStart : CDPRecording :=
  handleNetworkEvent {} "t0" 0 (.requestWillBeSent "r1" "http://x/api" "POST")

/-- Recording after the request-failed event for id "r1", 50 ms later
(C2 scenario). -/
def afterFailure : CDPRecording :=
  handleNetworkEvent pendingStart "t1" 50
    (.loadingFailed "r1" "net::ERR_CONNECTION_REFUSED" false none)

/-- Four call frames, one more than the forwarding cap (C8). -/
def fourFrames : List FrameInfo :=
  [{ functionName := some "f1", url := some "u1", lineNumber := 1, columnNumber := 1 },
   { functionName := some "f2", url := some "u2", lineNumber := 2, columnNumber := 2 },
   { functionName := some "f3", url := some "u3", lineNumber := 3, columnNumber := 3 },
   { functionName := some "f4", url := some "u4", lineNumber := 4, columnNumber := 4 }]

/-- Exception with a four-frame stack trace (C8). -/
def demoException : ExceptionDetails :=
  { text := some "boom", stackTrace := some fourFrames }

/-- Logger state after one close (first reconnect scheduled). -/
def loggerAfterOneClose : LoggerState := scheduleReconnect {}

/-- Logger state after a second close (second reconnect scheduled). -/
def loggerAfterTwoCloses : LoggerState := scheduleReconnect loggerAfterOneClose

/-- Message already held by a full buffer (C7). -/
def oldMsg : LogMessage := { message := "old" }

/-- Most recent message, arriving at a full buffer (C7). -/
def newestMsg : LogMessage := { message := "newest" }

/-- Buffer filled to the SDK client's cap of 100 entries (C7). -/
def fullLoggerBuffer : List LogMessage := List.replicate 100 oldMsg

/-!
Helper lemmas about the dedup loop.
-/

/-- Flushing a run never changes the surviving event's relative time. -/
theorem dedupeFlush_relativeTime (last : TEvent) (rc : Nat) :
    (dedupeFlush last rc).relativeTime = last.relativeTime := by
  unfold dedupeFlush
  split <;> rfl

/-- Relative times surviving the dedup loop form a sublist of the input's
relative times (the loop only drops events and rewrites messages). -/
theorem dedupeGo_map_rt_sublist (l : List TEvent) :
    ∀ (last : TEvent) (rc : Nat),
      List.Sublist ((dedupeGo last rc l).map (·.relativeTime))
        ((last :: l).map (·.relativeTime)) := by
  induction l with
  | nil =>
    intro last rc
    simp [dedupeGo, dedupeFlush_relativeTime]
  | cons e rest ih =>
    intro last rc
    cases h : dedupeSame last e with
    | true =>
      have h2 : List.Sublist ((last :: rest).map (·.relativeTime))
          ((last :: e :: rest).map (·.relativeTime)) := by
        simp only [List.map_cons]
        exact List.Sublist.cons₂ _ (List.sublist_cons_self _ _)
      have h3 := (ih last (rc + 1)).trans h2
      simpa [dedupeGo, h] using h3
    | false =>
      have h3 := List.Sublist.cons₂ last.relativeTime (ih e 0)
      simpa [dedupeGo, h, dedupeFlush_relativeTime] using h3

/-- Dedup preserves sortedness by relative time. -/
theorem dedupeEvents_pairwise {l : List TEvent}
    (h : List.Pairwise eventLE l) : List.Pairwise eventLE (dedupeEvents l) := by
  cases l with
  | nil => simp [dedupeEvents]
  | cons e rest =>
    have hsub := dedupeGo_map_rt_sublist rest e 0
    have hmap : ((e :: rest).map (·.relativeTime)).Pairwise (· ≤ ·) :=
      List.pairwise_map.mpr (h.imp fun hab => hab)
    have hded : ((dedupeGo e 0 rest).map (·.relativeTime)).Pairwise (· ≤ ·) :=
      hmap.sublist hsub
    have := List.pairwise_map.mp hded
    exact this.imp fun hab => hab

/-- A run of events that all repeat the run's first event collapses to the
single flushed survivor. -/
theorem dedupeGo_all_same (es : List TEvent) :
    ∀ (last : TEvent) (rc : Nat), (∀ x ∈ es, dedupeSame last x = true) →
      dedupeGo last rc es = [dedupeFlush last (rc + es.length)] := by
  induction es with
  | nil => intro last rc _; simp [dedupeGo]
  | cons e rest ih =>
    intro last rc hall
    have he : dedupeSame last e = true := hall e (by simp)
    have hrest : ∀ x ∈ rest, dedupeSame last x = true := fun x hx => hall x (by simp [hx])
    have harith : rc + 1 + rest.length = rc + (rest.length + 1) := by omega
    simp [dedupeGo, he, ih last (rc + 1) hrest, harith]

/-- Computation of `dedupeGo` through the instrumented run decomposition:
the dedup output is the flush of each run. -/
theorem dedupeGo_eq_runsGo (l : List TEvent) :
    ∀ (last : TEvent) (acc : List TEvent),
      dedupeGo last acc.length l =
        (dedupeRunsGo last acc l).map (fun p => dedupeFlush p.1 p.2.length) := by
  induction l with
  | nil => intro last acc; simp [dedupeGo, dedupeRunsGo]
  | cons e rest ih =>
    intro last acc
    cases h : dedupeSame last e with
    | true =>
      have h1 := ih last (e :: acc)
      simp only [List.length_cons] at h1
      simpa [dedupeGo, dedupeRunsGo, h] using h1
    | false =>
      have h1 := ih e []
      simp only [List.length_nil] at h1
      simp [dedupeGo, dedupeRunsGo, h, h1]

/-- Bridge from `dedupeEvents` to the run decomposition. -/
theorem dedupeEvents_eq_runs (l : List TEvent) :
    dedupeEvents l = (dedupeRuns l).map (fun p => dedupeFlush p.1 p.2.length) := by
  cases l with
  | nil => rfl
  | cons e rest =>
    simpa using dedupeGo_eq_runsGo rest e []

/-- Every event collapsed into a run repeats that run's first event: same
type, same message, and strictly within 100 ms of it. -/
theorem dedupeRunsGo_mem_same (l : List TEvent) :
    ∀ (last : TEvent) (acc : List TEvent),
      (∀ x ∈ acc, dedupeSame last x = true) →
      ∀ p ∈ dedupeRunsGo last acc l, ∀ x ∈ p.2, dedupeSame p.1 x = true := by
  induction l with
  | nil =>
    intro last acc hacc p hp x hx
    simp only [dedupeRunsGo, List.mem_singleton] at hp
    subst hp
    exact hacc x (by simpa using hx)
  | cons e rest ih =>
    intro last acc hacc p hp x hx
    cases h : dedupeSame last e with
    | true =>
      simp only [dedupeRunsGo, h, if_true] at hp
      exact ih last (e :: acc)
        (by intro y hy; rcases List.mem_cons.mp hy with rfl | hy
            · exact h
            · exact hacc y hy) p hp x hx
    | false =>
      simp only [dedupeRunsGo, h, Bool.false_eq_true, if_false, List.mem_cons] at hp
      rcases hp with rfl | hp
      · exact hacc x (by simpa using hx)
      · exact ih e [] (by simp) p hp x hx

/-- With sorted input, a run's first event is no later than any event
collapsed into the run. -/
theorem dedupeRunsGo_head_le (l : List TEvent) :
    ∀ (last : TEvent) (acc : List TEvent),
      List.Pairwise eventLE (last :: l) →
      (∀ x ∈ acc, eventLE last x) →
      ∀ p ∈ dedupeRunsGo last acc l, ∀ x ∈ p.2, eventLE p.1 x := by
  induction l with
  | nil =>
    intro last acc _ hacc p hp x hx
    simp only [dedupeRunsGo, List.mem_singleton] at hp
    subst hp
    exact hacc x (by simpa using hx)
  | cons e rest ih =>
    intro last acc hsorted hacc p hp x hx
    have hle : eventLE last e := (List.pairwise_cons.mp hsorted).1 e (by simp)
    have hsorted' : List.Pairwise eventLE (last :: rest) := by
      rcases List.pairwise_cons.mp hsorted with ⟨hl, hrest⟩
      exact List.pairwise_cons.mpr
        ⟨fun y hy => hl y (by simp [hy]), (List.pairwise_cons.mp hrest).2⟩
    cases h : dedupeSame last e with
    | true =>
      simp only [dedupeRunsGo, h, if_true] at hp
      exact ih last (e :: acc) hsorted'
        (by intro y hy; rcases List.mem_cons.mp hy with rfl | hy
            · exact hle
            · exact hacc y hy) p hp x hx
    | false =>
      simp only [dedupeRunsGo, h, Bool.false_eq_true, if_false, List.mem_cons] at hp
      rcases hp with rfl | hp
      · exact hacc x (by simpa using hx)
      · exact ih e [] (List.pairwise_cons.mp hsorted).2 (by simp) p hp x hx

/-!
Claim C3 — deduplication window.
-/

/-- Claim C3, counterexample: two events of identical type and message only
20 ms apart (`dupA` and `dupC`) are NOT collapsed when an unrelated event
sits between them — `dedupeEvents` returns all three events unchanged, with
no `×2` suffix, contradicting the claim that any two identical events
within 100 ms are collapsed into exactly one suffixed event. -/
theorem dedupe_within_window_not_collapsed :
    dedupeEvents [dupA, sepB, dupC] = [dupA, sepB, dupC]
    ∧ dupA.type = dupC.type ∧ dupA.message = dupC.message
    ∧ (dupC.relativeTime - dupA.relativeTime).natAbs < 100 := by
  decide

/-- Claim C3 (amended): the dedup step collapses a run of consecutive
events that all repeat the run's first event (same type and message, each
strictly within 100 ms of that first event) into exactly one event whose
message carries the `(×N)` suffix; and, on the sorted inputs the correlator
produces, any two events that are collapsed together (members of the same
run of the run decomposition, through which `dedupeEvents` factors) are
strictly within 100 ms of each other — so two events 100 ms or more apart
are never collapsed. -/
theorem dedupe_run_collapse (e : TEvent) (es l : List TEvent)
    (hne : es ≠ []) (hall : ∀ x ∈ es, dedupeSame e x = true)
    (hsorted : List.Pairwise eventLE l) :
    dedupeEvents (e :: es) =
      [{ e with message := some (jsStr e.message ++ " (×" ++ toString (es.length + 1) ++ ")") }]
    ∧ dedupeEvents l = (dedupeRuns l).map (fun p => dedupeFlush p.1 p.2.length)
    ∧ ∀ p ∈ dedupeRuns l, ∀ x ∈ p.1 :: p.2, ∀ y ∈ p.1 :: p.2,
        (x.relativeTime - y.relativeTime).natAbs < 100 := by
  refine ⟨?_, dedupeEvents_eq_runs l, ?_⟩
  · have h1 : dedupeEvents (e :: es) = dedupeGo e 0 es := rfl
    rw [h1, dedupeGo_all_same es e 0 hall, Nat.zero_add]
    have hlen : es.length > 0 := List.length_pos.mpr hne
    unfold dedupeFlush
    rw [if_pos hlen]
  · intro p hp x hx y hy
    cases l with
    | nil => simp [dedupeRuns] at hp
    | cons a rest =>
      have hp' : p ∈ dedupeRunsGo a [] rest := hp
      have hbound : ∀ z ∈ p.2,
          p.1.relativeTime ≤ z.relativeTime ∧
            (z.relativeTime - p.1.relativeTime).natAbs < 100 := by
        intro z hz
        refine ⟨dedupeRunsGo_head_le rest a [] hsorted (by simp) p hp' z hz, ?_⟩
        have hh := dedupeRunsGo_mem_same rest a [] (by simp) p hp' z hz
        simp only [dedupeSame, Bool.and_eq_true, decide_eq_true_eq] at hh
        exact hh.2
      rcases List.mem_cons.mp hx with rfl | hx' <;> rcases List.mem_cons.mp hy with rfl | hy'
      · omega
      · have := hbound y hy'
        omega
      · have := hbound x hx'
        omega
      · have hbx := hbound x hx'
        have hby := hbound y hy'
        omega

/-- Claim C3, witness: two identical console errors 50 ms apart collapse to
one event suffixed `(×2)`. -/
theorem dedupe_run_collapse_witness :
    dedupeEvents [dupA, dupA2] = [{ dupA with message := some "m (×2)" }] := by
  have h := (dedupe_run_collapse dupA [dupA2] [dupA, dupC]
    (by decide) (by decide) (by decide)).1
  rw [h]
  decide

/-!
Claim C4 — timeline sortedness.
-/

/-- Claim C4: for every raw event set collected during a session, the
events list of the timeline produced by `generateTimeline` (merge, sort,
then dedup) is sorted by non-decreasing relative time. -/
theorem generateTimeline_events_sorted (rd : RecordingData) :
    List.Pairwise eventLE (generateTimeline rd).events := by
  exact dedupeEvents_pairwise (List.sorted_insertionSort eventLE _)

/-!
Claim C5 — unique root cause.
-/

/-- Key issues built by `buildKeyIssues` never carry the root-cause flag. -/
theorem buildKeyIssues_not_root (events : List TEvent) :
    ∀ k ∈ buildKeyIssues events, k.isRootCause = false := by
  intro k hk
  unfold buildKeyIssues at hk
  simp only [List.mem_append, List.mem_map] at hk
  rcases hk with (⟨e, _, rfl⟩ | ⟨e, _, rfl⟩) | ⟨e, _, rfl⟩ <;> rfl

/-- Root-cause marking on a sorted list of unflagged issues: exactly one
flag when non-empty, none when empty, and the flagged issue is earliest. -/
theorem markRootCause_spec (l : List KeyIssue)
    (hall : ∀ k ∈ l, k.isRootCause = false)
    (hsorted : List.Pairwise keyIssueLE l) :
    ((markRootCause l).countP (fun k => k.isRootCause) =
      if (markRootCause l).isEmpty then 0 else 1)
    ∧ ∀ k ∈ markRootCause l, k.isRootCause = true →
        ∀ k' ∈ markRootCause l, k.relativeTime ≤ k'.relativeTime := by
  cases l with
  | nil => exact ⟨rfl, by intro k hk; simp [markRootCause] at hk⟩
  | cons h t =>
    constructor
    · have hcount : t.countP (fun k => k.isRootCause) = 0 :=
        List.countP_eq_zero.mpr (fun a ha => by simp [hall a (by simp [ha])])
      simp [markRootCause, List.countP_cons, hcount]
    · intro k hk hroot k' hk'
      simp only [markRootCause, List.mem_cons] at hk hk'
      have hhead : k = { h with isRootCause := true } := by
        rcases hk with rfl | hk2
        · rfl
        · exact absurd hroot (by simp [hall k (by simp [hk2])])
      subst hhead
      rcases hk' with rfl | hk2
      · exact le_refl _
      · exact (List.rel_of_pairwise_cons hsorted hk2 : keyIssueLE h k')

/-- Claim C5: for every timeline, the key-issue list returned by
`analyzeKeyIssues` contains exactly one member with `isRootCause = true` —
a chronologically earliest key issue — when the list is non-empty, and zero
such members when it is empty. -/
theorem analyzeKeyIssues_unique_root (tl : Timeline) :
    ((analyzeKeyIssues tl).countP (fun k => k.isRootCause) =
      if (analyzeKeyIssues tl).isEmpty then 0 else 1)
    ∧ ∀ k ∈ analyzeKeyIssues tl, k.isRootCause = true →
        ∀ k' ∈ analyzeKeyIssues tl, k.relativeTime ≤ k'.relativeTime := by
  have hall : ∀ k ∈ List.insertionSort keyIssueLE (buildKeyIssues tl.events),
      k.isRootCause = false := by
    intro k hk
    exact buildKeyIssues_not_root tl.events k
      ((List.perm_insertionSort keyIssueLE _).mem_iff.mp hk)
  exact markRootCause_spec _ hall (List.sorted_insertionSort keyIssueLE _)

/-- Claim C5, witness: on a concrete two-issue timeline, exactly one key
issue carries the root-cause flag. -/
theorem analyzeKeyIssues_unique_root_witness :
    (analyzeKeyIssues demoTimeline).countP (fun k => k.isRootCause) = 1 := by
  have h := (analyzeKeyIssues_unique_root demoTimeline).1
  rw [h]
  decide

/-!
Claim C1 — shared debugger attachment.
-/

/-- Claim C1, counterexample: with both consumers active on tab 1,
releasing the viewport consumer (`resetViewport`, both debugger calls
succeeding) physically detaches the debugger even though the CDP recording
for that tab is still active — contradicting the claim that a release by
one consumer while the other is still active never detaches. -/
theorem resetViewport_detaches_while_recording :
    (resetViewport bothActive 1 (.ok ()) (.ok ())).cdpRecordingTabs = [1]
    ∧ (resetViewport bothActive 1 (.ok ()) (.ok ())).attachedTabs = [] := by
  decide

/-- Claim C1 (amended): the sharing check is one-directional — stopping
the CDP recording while the viewport override is still active does not
detach the debugger, but resetting the viewport always detaches it,
regardless of any active recording for the tab. -/
theorem stopCDP_respects_viewport (s : BGState) (tabId : Nat)
    (detachRes : Except String Unit)
    (h : tabId ∈ s.viewportOverrides) :
    (stopCDPRecording s tabId detachRes).attachedTabs = s.attachedTabs
    ∧ (resetViewport s tabId (.ok ()) (.ok ())).attachedTabs =
        s.attachedTabs.filter (· ≠ tabId) := by
  constructor
  · unfold stopCDPRecording
    split
    · simp [h]
    · rfl
  · rfl

/-- Claim C1, witness: in the two-consumer state, stopping the CDP
recording leaves the debugger attached. -/
theorem stopCDP_respects_viewport_witness :
    (stopCDPRecording bothActive 1 (.ok ())).attachedTabs = bothActive.attachedTabs :=
  (stopCDP_respects_viewport bothActive 1 (.ok ()) (by decide)).1

/-!
Claim C2 — terminal network outcomes and the pending-request map.
-/

/-- Claim C2, counterexample: a request-started event for id "r1" followed
by a request-failed for "r1" yields one network-failure event using the
method captured at start — but the pending-request entry is NOT removed
afterwards; it is still present in the map, contradicting the claim. -/
theorem pending_entry_not_removed :
    (afterFailure.events.map (fun e => (e.type, e.subtype, e.method, e.url))) =
      [("network", some "failed", some "POST", some "http://x/api")]
    ∧ afterFailure.pendingRequests.lookup "r1" =
        some { url := "http://x/api", method := "POST" } := by
  decide

/-- Claim C2 (amended): on any terminal outcome the network adapter emits
exactly one network event — using the method recorded at request start
(default GET) and the response's own url for responses, and the method and
url recorded at start (default "unknown") for loading failures — but it
never removes the id's entry from the pending-request map: the map is left
unchanged and entries persist until the recording is discarded at stop. -/
theorem terminal_network_event_emission (rec : CDPRecording) (ts : String) (rt : Int)
    (requestId url statusText mimeType resourceType : String) (status : Int)
    (errorText : String) (canceled : Bool) (blockedReason : Option String) :
    ((handleNetworkEvent rec ts rt
        (.responseReceived requestId url status statusText mimeType resourceType)).pendingRequests
        = rec.pendingRequests
      ∧ ∃ ev, (handleNetworkEvent rec ts rt
            (.responseReceived requestId url status statusText mimeType resourceType)).events
            = rec.events ++ [ev]
          ∧ ev.type = "network"
          ∧ ev.url = some url
          ∧ ev.method = some (((rec.pendingRequests.lookup requestId).map (·.method)).getD "GET")
          ∧ ev.subtype = some (if 200 ≤ status ∧ status < 400 then "success" else "failed"))
    ∧ ((handleNetworkEvent rec ts rt
        (.loadingFailed requestId errorText canceled blockedReason)).pendingRequests
        = rec.pendingRequests
      ∧ ∃ ev, (handleNetworkEvent rec ts rt
            (.loadingFailed requestId errorText canceled blockedReason)).events
            = rec.events ++ [ev]
          ∧ ev.type = "network"
          ∧ ev.subtype = some "failed"
          ∧ ev.method = some (((rec.pendingRequests.lookup requestId).map (·.method)).getD "unknown")
          ∧ ev.url = some (((rec.pendingRequests.lookup requestId).map (·.url)).getD "unknown")) := by
  exact ⟨⟨rfl, ⟨_, rfl, rfl, rfl, rfl, rfl⟩⟩, ⟨rfl, ⟨_, rfl, rfl, rfl, rfl, rfl⟩⟩⟩

/-!
Claim C10 — recording-start / recording-end markers.
-/

/-- Claim C10: calling `addTimelineEvent` with an event whose type is
recording-start or recording-end leaves every session buffer (console,
network, interactions) unchanged — the event matches none of the three
routing branches and is silently discarded. -/
theorem recording_markers_leave_buffers (rd : RecordingData) (ts : String) (rt : Int)
    (event : NewEvent)
    (h : event.type = "recording-start" ∨ event.type = "recording-end") :
    addTimelineEvent rd ts rt event = rd := by
  have h1 : jsStartsWith event.type "console" = false := by
    rcases h with h | h <;> rw [h] <;> decide
  have h2 : event.type ≠ "network" := by
    rcases h with h | h <;> rw [h] <;> decide
  have h3 : jsStartsWith event.type "user-interaction" = false := by
    rcases h with h | h <;> rw [h] <;> decide
  simp [addTimelineEvent, h1, h2, h3]

/-- Claim C10, witness: a recording-start event leaves empty buffers
empty. -/
theorem recording_markers_leave_buffers_witness :
    addTimelineEvent {} "t" 0 { type := "recording-start" } = ({} : RecordingData) :=
  recording_markers_leave_buffers {} "t" 0 { type := "recording-start" } (Or.inl rfl)

/-!
Claim C8 — stack-trace depth cap.
-/

/-- Claim C8, counterexample: an uncaught exception with a four-frame stack
trace is forwarded by the exception handler with all four frames in its
formatted stack — deeper than the claimed three-frame cap. -/
theorem exception_stack_not_capped :
    ((handleExceptionThrown {} "t" 0 demoException).events.map (fun e => e.stack)) =
      [some ("    at f1 (u1:1:1)\n    at f2 (u2:2:2)\n    at f3 (u3:3:3)\n    at f4 (u4:4:4)")]
    ∧ (exceptionStackLines fourFrames).length = 4 := by
  decide

/-- Claim C8 (amended): only events forwarded by the console-API handler
carry a stack trace capped at the first 3 frames; events forwarded by the
exception handler carry a formatted stack built from all call frames, one
line per frame, with no cap. -/
theorem console_stack_capped (rec : CDPRecording) (ts : String) (rt : Int)
    (params : ConsoleAPIParams) (exc : ExceptionDetails) :
    (∀ ev ∈ (handleConsoleAPICalled rec ts rt params).events,
      ev ∈ rec.events ∨ ∀ fs, ev.stackTrace = some fs → fs.length ≤ 3)
    ∧ (∀ ev ∈ (handleExceptionThrown rec ts rt exc).events,
      ev ∈ rec.events ∨ ev.stack = exc.stackTrace.map (fun fs =>
        String.intercalate "\n" (exceptionStackLines fs)))
    ∧ ∀ fs : List FrameInfo, (exceptionStackLines fs).length = fs.length := by
  refine ⟨?_, ?_, fun fs => List.length_map _ _⟩
  · intro ev hev
    cases hf : isFromPointaExtension (params.stackTrace.getD []) with
    | true =>
      left
      simpa [handleConsoleAPICalled, hf] using hev
    | false =>
      simp only [handleConsoleAPICalled, hf, Bool.false_eq_true, if_false,
        List.mem_append, List.mem_singleton] at hev
      rcases hev with hev | hev
      · exact Or.inl hev
      · right
        intro fs hfs
        subst hev
        cases hst : params.stackTrace with
        | none => rw [hst] at hfs; simp at hfs
        | some fs' =>
          rw [hst] at hfs
          simp only [Option.map_some', Option.some.injEq] at hfs
          subst hfs
          simp [List.length_map, List.length_take]
  · intro ev hev
    simp only [handleExceptionThrown, List.mem_append, List.mem_singleton] at hev
    rcases hev with hev | hev
    · exact Or.inl hev
    · subst hev
      exact Or.inr rfl

/-- Claim C8, witness: the exception stack-line list is frame-for-frame on
the concrete four-frame stack. -/
theorem console_stack_capped_witness :
    (exceptionStackLines fourFrames).length = fourFrames.length :=
  (console_stack_capped {} "t" 0 { type := "error" } demoException).2.2 fourFrames

/-!
Claim C9 — recording start failure leaves no entry.
-/

/-- Filtering out a value that was only just appended restores the original
list. -/
theorem filter_ne_append_self (xs : List Nat) (t : Nat) (h : t ∉ xs) :
    (xs ++ [t]).filter (· ≠ t) = xs := by
  induction xs with
  | nil => simp
  | cons x xs ih =>
    have hx : x ≠ t := fun heq => h (by simp [heq])
    have hxs : t ∉ xs := fun hm => h (by simp [hm])
    simp only [List.cons_append, List.filter_cons]
    simp [hx, ih hxs]
    exact fun a ha heq => hxs (heq ▸ ha)

/-- Claim C9: if attaching the debugger or enabling any capability domain
fails, `startCDPRecording` returns that error to the caller and the per-tab
recording map is as if the call had never been made; and the call succeeds
exactly when every required step succeeds. -/
theorem startCDP_failure_propagates (s : BGState) (t : Nat)
    (a n l r : Except String Unit) (hnot : t ∉ s.cdpRecordingTabs) :
    (∀ e, (startCDPRecording s t a n l r).1 = Except.error e →
      (startCDPRecording s t a n l r).2.cdpRecordingTabs = s.cdpRecordingTabs
      ∧ (a = .error e ∨ n = .error e ∨ l = .error e ∨ r = .error e))
    ∧ ((startCDPRecording s t a n l r).1 = Except.ok () ↔
        ((t ∈ s.viewportOverrides ∨ a = .ok ()) ∧ n = .ok () ∧ l = .ok () ∧ r = .ok ())) := by
  have hfilter := filter_ne_append_self s.cdpRecordingTabs t hnot
  by_cases hv : t ∈ s.viewportOverrides <;>
    rcases a with ea | ⟨⟩ <;> rcases n with en | ⟨⟩ <;>
    rcases l with el | ⟨⟩ <;> rcases r with er | ⟨⟩ <;>
    simp_all [startCDPRecording]

/-- Claim C9, witness: a failed attach on a fresh tab returns the attach
error and leaves the recording map empty. -/
theorem startCDP_failure_propagates_witness :
    (startCDPRecording {} 1 (.error "attach failed") (.ok ()) (.ok ()) (.ok ())).2.cdpRecordingTabs
      = ({} : BGState).cdpRecordingTabs :=
  ((startCDP_failure_propagates {} 1 (.error "attach failed") (.ok ()) (.ok ()) (.ok ())
    (by decide)).1 "attach failed" rfl).1

/-!
Claim C6 — reconnect backoff and permanent disablement.
-/

/-- Once the preload client has exhausted its reconnect attempts with no
socket alive, no later event ever creates a socket, changes the attempt
counter, arms a new reconnect delay, or sets a timer that was not already
set. -/
theorem preload_exhausted_run (evs : List PreloadEvent) :
    ∀ s : PreloadState, s.reconnectAttempts ≥ MAX_RECONNECT_ATTEMPTS →
      s.hasSocket = false →
      (preloadRun s evs).hasSocket = false
      ∧ (preloadRun s evs).reconnectAttempts = s.reconnectAttempts
      ∧ (preloadRun s evs).lastDelay = s.lastDelay
      ∧ ((preloadRun s evs).timerArmed = true → s.timerArmed = true) := by
  induction evs with
  | nil => intro s _ h2; exact ⟨h2, rfl, rfl, fun h => h⟩
  | cons ev rest ih =>
    intro s h1 h2
    have hstep : (preloadStep s ev).hasSocket = false
        ∧ (preloadStep s ev).reconnectAttempts = s.reconnectAttempts
        ∧ (preloadStep s ev).lastDelay = s.lastDelay
        ∧ ((preloadStep s ev).timerArmed = true → s.timerArmed = true) := by
      cases ev with
      | socketClose => simp [preloadStep, h2]
      | timerFire =>
        by_cases ht : s.timerArmed = true
        · simp [preloadStep, ht, h1, h2]
        · have hid : preloadStep s .timerFire = s := by simp [preloadStep, ht]
          rw [hid]
          exact ⟨h2, rfl, rfl, fun h => h⟩
      | socketOpen => simp [preloadStep, h2]
      | consoleLog m =>
        simp only [preloadStep, preloadSendLog]
        split
        · exact ⟨h2, rfl, rfl, fun h => h⟩
        · split
          · exact ⟨h2, rfl, rfl, fun h => h⟩
          · exact ⟨h2, rfl, rfl, fun h => h⟩
    have hrun : preloadRun s (ev :: rest) = preloadRun (preloadStep s ev) rest := rfl
    have hrest := ih (preloadStep s ev) (by rw [hstep.2.1]; exact h1) hstep.1
    rw [hrun]
    exact ⟨hrest.1, hrest.2.1.trans hstep.2.1, hrest.2.2.1.trans hstep.2.2.1,
      fun h => hstep.2.2.2 (hrest.2.2.2 h)⟩

/-- Claim C6, counterexample: the SDK logger client's backoff multiplies
the delay by 1.5 per attempt, not 2 — after the first close it arms a
2000 ms delay, after the second a 3000 ms delay, where doubling would
require 4000 ms. -/
theorem logger_backoff_not_doubling :
    loggerAfterOneClose.lastDelay = some 2000
    ∧ loggerAfterTwoCloses.lastDelay = some 3000
    ∧ (3000 : ℚ) ≠ 2 * 2000 := by
  refine ⟨?_, ?_, by norm_num⟩
  · show (scheduleReconnect {}).lastDelay = some 2000
    simp [scheduleReconnect, loggerReconnectBaseDelay, loggerMaxReconnectAttempts]
  · show (scheduleReconnect loggerAfterOneClose).lastDelay = some 3000
    simp [loggerAfterOneClose, scheduleReconnect, loggerReconnectBaseDelay,
      loggerMaxReconnectAttempts]
    norm_num

/-- Claim C6 (amended): the preload client's close handler always arms a
reconnect timer whose delay doubles per attempt up to the 30 s cap, and
after its 10 attempts are exhausted no further socket is ever created, the
counter and armed delay never change again, and no new timer is armed; the
SDK logger client's delay instead grows by a factor of 1.5 per attempt
(with no explicit cap), and once its 5 attempts are exhausted
`scheduleReconnect` clears any pending timer and arms no further one. -/
theorem reconnect_backoff_behaviour (n : Nat) (s s₁ : PreloadState)
    (evs : List PreloadEvent) (sl sl' : LoggerState)
    (h30 : 1000 * 2 ^ (n + 1) ≤ 30000)
    (hs : s.reconnectAttempts ≥ MAX_RECONNECT_ATTEMPTS) (hsock : s.hasSocket = false)
    (hclose : s₁.hasSocket = true)
    (hl : sl.reconnectAttempts ≥ loggerMaxReconnectAttempts)
    (hl' : sl'.reconnectAttempts + 1 < loggerMaxReconnectAttempts) :
    preloadReconnectDelay (n + 1) = 2 * preloadReconnectDelay n
    ∧ preloadReconnectDelay n ≤ 30000
    ∧ ((preloadStep s₁ .socketClose).timerArmed = true
        ∧ (preloadStep s₁ .socketClose).lastDelay =
            some (preloadReconnectDelay (s₁.reconnectAttempts + 1)))
    ∧ ((preloadRun s evs).hasSocket = false
        ∧ (preloadRun s evs).lastDelay = s.lastDelay
        ∧ ((preloadRun s evs).timerArmed = true → s.timerArmed = true))
    ∧ scheduleReconnect sl = { sl with timerArmed := false }
    ∧ (scheduleReconnect (scheduleReconnect sl')).lastDelay =
        some ((3 / 2 : ℚ) * ((scheduleReconnect sl').lastDelay.getD 0)) := by
  refine ⟨?_, ?_, ?_, ?_, ?_, ?_⟩
  · have hle : 1000 * 2 ^ n ≤ 1000 * 2 ^ (n + 1) := by
      have : (2 : Nat) ^ n ≤ 2 ^ (n + 1) := Nat.pow_le_pow_right (by norm_num) (by omega)
      exact Nat.mul_le_mul_left 1000 this
    have h1 : preloadReconnectDelay (n + 1) = 1000 * 2 ^ (n + 1) :=
      Nat.min_eq_left h30
    have h2 : preloadReconnectDelay n = 1000 * 2 ^ n :=
      Nat.min_eq_left (le_trans hle h30)
    rw [h1, h2, pow_succ]
    ring
  · exact Nat.min_le_right _ _
  · constructor
    · simp [preloadStep, hclose]
    · simp [preloadStep, hclose]
  · have h := preload_exhausted_run evs s hs hsock
    exact ⟨h.1, h.2.2.1, h.2.2.2⟩
  · simp [scheduleReconnect, hl]
  · have ha : ¬ (sl'.reconnectAttempts ≥ loggerMaxReconnectAttempts) := by omega
    have hb : ¬ (sl'.reconnectAttempts + 1 ≥ loggerMaxReconnectAttempts) := by omega
    simp only [scheduleReconnect, ha, hb, if_false, Nat.add_sub_cancel,
      Option.getD_some]
    rw [pow_succ]
    ring_nf

/-- Claim C6, witness: the preload backoff doubles from the first to the
second attempt. -/
theorem reconnect_backoff_behaviour_witness :
    preloadReconnectDelay (0 + 1) = 2 * preloadReconnectDelay 0 :=
  (reconnect_backoff_behaviour 0 { reconnectAttempts := 10 } { hasSocket := true } []
    { reconnectAttempts := 5 } {} (by decide) (by decide) (by decide) (by decide)
    (by decide) (by decide)).1

/-!
Claim C7 — disconnected-message buffering.
-/

/-- Claim C7, counterexample: with the SDK client's buffer already at its
cap of 100, a newly generated message is silently discarded — the buffer
keeps the 100 oldest messages and loses the most recent activity,
contradicting the claimed ring-buffer retention; and the preload client's
queue has no cap at all — it grows to 101 entries. -/
theorem full_buffer_drops_newest :
    (loggerSend { wsOpen := false, buffer := fullLoggerBuffer } newestMsg).buffer
      = fullLoggerBuffer
    ∧ newestMsg ∉ (loggerSend { wsOpen := false, buffer := fullLoggerBuffer } newestMsg).buffer
    ∧ (preloadSendLog { isRecording := true, messageQueue := fullLoggerBuffer }
        newestMsg).messageQueue.length = 101 := by
  decide

/-- Claim C7 (amended): the SDK client's buffer never grows past its cap of
100 entries, but when full it drops the incoming (most recent) message and
retains the oldest ones; below the cap messages are appended in order.  The
preload client's disconnected queue is unbounded — every message generated
while recording and disconnected is appended — and on a successful open the
whole queue is flushed. -/
theorem buffer_cap_behaviour (s s₂ : LoggerState) (p : PreloadState) (m : LogMessage)
    (hcap : s.buffer.length ≤ loggerMaxBufferSize)
    (hopen : s₂.wsOpen = false) (hlen : s₂.buffer.length = loggerMaxBufferSize)
    (hrec : p.isRecording = true) (hclosed : (p.hasSocket && p.wsOpen) = false) :
    (loggerSend s m).buffer.length ≤ loggerMaxBufferSize
    ∧ (loggerSend s₂ m).buffer = s₂.buffer
    ∧ (∀ s₃ : LoggerState, s₃.wsOpen = false →
        s₃.buffer.length < loggerMaxBufferSize →
        (loggerSend s₃ m).buffer = s₃.buffer ++ [m])
    ∧ (preloadSendLog p m).messageQueue = p.messageQueue ++ [m]
    ∧ ∀ q : PreloadState, q.hasSocket = true →
        (preloadStep q .socketOpen).sentMessages = q.sentMessages ++ q.messageQueue := by
  refine ⟨?_, ?_, ?_, ?_, ?_⟩
  · unfold loggerSend
    split
    · exact hcap
    · split
      · rename_i hlt
        simpa using Nat.succ_le_of_lt hlt
      · exact hcap
  · simp [loggerSend, hopen, hlen]
  · intro s₃ h₃ hlt
    simp [loggerSend, h₃, hlt]
  · simp only [preloadSendLog, hrec, Bool.not_true, Bool.false_eq_true, if_false, hclosed]
  · intro q hq
    simp [preloadStep, hq]

/-- Claim C7, witness: below the cap, a disconnected message is appended to
the SDK client's buffer. -/
theorem buffer_cap_behaviour_witness :
    (loggerSend { wsOpen := false, buffer := [oldMsg] } newestMsg).buffer
      = [oldMsg] ++ [newestMsg] :=
  (buffer_cap_behaviour {} { wsOpen := false, buffer := fullLoggerBuffer }
    { isRecording := true } newestMsg (by decide) (by decide) (by decide)
    (by decide) (by decide)).2.2.1
    { wsOpen := false, buffer := [oldMsg] } (by decide) (by decide)

end Pointa
